import Mathlib

/-!
Verification of the kiro-proxy core against its natural-language
specification.  The definitions below are a shallow embedding of the
TypeScript sources under `src/kiro-proxy/` (session fingerprinting in
`session-manager.ts`, the pool operations `getOrCreate` / `resetSession` /
`gc`, and the streaming completions handler in `server.ts`).  Machine
arithmetic is modelled on `Nat` with explicit reduction modulo `2 ^ 32`
where the JavaScript code relies on 32-bit behaviour (the SHA-256
fingerprint), and the event-driven parts are modelled as explicit state
passing over a pool-state record.
-/

namespace KiroProxy

/-- The JavaScript whitespace class: the characters that
`String.prototype.trim` and the regular-expression class `\s` treat as
whitespace (ECMAScript WhiteSpace plus LineTerminator). -/
def jsWhitespaceChars : List Char :=
  [' ', '\t', '\n', '\r', '\x0b', '\x0c',
   Char.ofNat 0x00A0, Char.ofNat 0x1680,
   Char.ofNat 0x2000, Char.ofNat 0x2001, Char.ofNat 0x2002, Char.ofNat 0x2003,
   Char.ofNat 0x2004, Char.ofNat 0x2005, Char.ofNat 0x2006, Char.ofNat 0x2007,
   Char.ofNat 0x2008, Char.ofNat 0x2009, Char.ofNat 0x200A,
   Char.ofNat 0x2028, Char.ofNat 0x2029, Char.ofNat 0x202F,
   Char.ofNat 0x205F, Char.ofNat 0x3000, Char.ofNat 0xFEFF]

/-- Whether a character is JavaScript whitespace. -/
def isJsWs (c : Char) : Bool := jsWhitespaceChars.contains c

/-- JavaScript `String.prototype.trim`: drop leading and trailing
whitespace. -/
def jsTrim (s : String) : String :=
  String.mk (((s.data.dropWhile isJsWs).reverse.dropWhile isJsWs).reverse)

/-- Join strings with a separator (list-level implementation of
`Array.intercalate`-style joining, matching JavaScript `Array.join`). -/
def joinSep (sep : String) (parts : List String) : String :=
  String.mk (List.intercalate sep.data (parts.map String.data))

/-- One element of an OpenAI content-part array, `{type, text?}`; parts of
other types carry no usable `text` and are ignored by `extractText`. -/
structure ContentPart where
  type : String
  text : Option String
deriving DecidableEq

/-- OpenAI message content: either a plain string or an ordered array of
typed content parts (the two shapes `extractText` in `session-manager.ts`
distinguishes). -/
inductive OpenAIContent where
  | str (s : String)
  | parts (ps : List ContentPart)
deriving DecidableEq

/-- A conversation message `(role, content)`.  Roles are kept as raw
strings: the code compares them with `===` against `"system"`,
`"user"`, `"assistant"`, and unknown roles flow through untouched. -/
structure OpenAIMessage where
  role : String
  content : OpenAIContent
deriving DecidableEq

/-- Model of `extractText` from `session-manager.ts`: string content passes through;
a parts array keeps the parts whose `type` is `"text"` and whose `text`
field is truthy (present and non-empty), and joins their texts with a
single space. -/
def extractText : OpenAIContent → String
  | .str s => s
  | .parts ps =>
      joinSep " "
        ((ps.filter (fun p => p.type == "text" && !(p.text.getD "" == ""))).map
          (fun p => p.text.getD ""))

/-- Model of `buildPromptFromMessages` from `session-manager.ts` (the drop-system
variant the pool uses): collect the extracted text of the `user` messages
only, join with a blank line, trim.  System and assistant messages are
skipped by the loop. -/
def buildPromptFromMessages (messages : List OpenAIMessage) : String :=
  jsTrim (joinSep "\n\n"
    (messages.filterMap (fun m =>
      if m.role == "user" then some (extractText m.content) else none)))

/-- The prompt text as §4.2 of the spec words it (for comparison with the
implementation): "Concatenate the textual content of only the `user`
messages, joined by a blank line, trimmed." -/
def promptTextSpec (messages : List OpenAIMessage) : String :=
  jsTrim (joinSep "\n\n" ((messages.filter (fun m => m.role == "user")).map
    (fun m => extractText m.content)))

/-- Model of `getLatestUserMessage` from `session-manager.ts`: walk the message
array backwards and return the extracted text of the first `user` message
found, or the empty string. -/
def getLatestUserMessage (messages : List OpenAIMessage) : String :=
  match messages.reverse.find? (fun m => m.role == "user") with
  | some m => extractText m.content
  | none => ""

/-- Model of `isInvalidHistoryError` from `session-manager.ts`: the error message
contains the sentinel substring `"invalid conversation history"`. -/
def isInvalidHistoryError (msg : String) : Bool :=
  decide ("invalid conversation history".data <:+: msg.data)

/-! ### The two noise-strip regular expressions

`resolveSessionKey` strips two noise fields from the anchor text before
hashing, with global `String.replace`:

* `/"message_id"\s*:\s*"[^"]*",?\s*/g`
* `/\[[^\]]*[A-Z][a-z]{2} \d{4}-\d{2}-\d{2} \d{2}:\d{2} [A-Z]+\]\s*/g`

Both are modelled as deterministic matchers.  The first pattern has no
backtracking choice points.  In the second, `[^\]]*` cannot cross a `]`,
so the closing `\]` is the first `]` after the opening bracket, and the
greedy `[A-Z]+` run anchored at that `]` forces a unique parse of the
timestamp tail, checked right-to-left from the `]`. -/

/-- ASCII digit, for the regex class `\d`. -/
def isAsciiDigit (c : Char) : Bool := 48 ≤ c.toNat && c.toNat ≤ 57

/-- ASCII uppercase letter, for the regex class `[A-Z]`. -/
def isAsciiUpper (c : Char) : Bool := 65 ≤ c.toNat && c.toNat ≤ 90

/-- ASCII lowercase letter, for the regex class `[a-z]`. -/
def isAsciiLower (c : Char) : Bool := 97 ≤ c.toNat && c.toNat ≤ 122

/-- Match a literal character sequence at the head of a list, returning the
remainder on success. -/
def dropLit : List Char → List Char → Option (List Char)
  | [], l => some l
  | _ :: _, [] => none
  | p :: ps, c :: cs => if c == p then dropLit ps cs else none

/-- Match `n` characters satisfying `p` at the head of a list, returning
the remainder on success. -/
def dropClass (p : Char → Bool) : Nat → List Char → Option (List Char)
  | 0, l => some l
  | _ + 1, [] => none
  | n + 1, c :: cs => if p c then dropClass p n cs else none

/-- Match `/"message_id"\s*:\s*"[^"]*",?\s*/` at the head of `l`; on
success return the suffix after the whole match. -/
def matchMessageIdAt (l : List Char) : Option (List Char) :=
  (dropLit "\"message_id\"".data l).bind fun l1 =>
    match (l1.dropWhile isJsWs) with
    | ':' :: l2 =>
        match l2.dropWhile isJsWs with
        | '"' :: l3 =>
            match l3.dropWhile (fun c => !(c == '"')) with
            | '"' :: l4 =>
                let l5 := match l4 with
                  | ',' :: t => t
                  | t => t
                some (l5.dropWhile isJsWs)
            | _ => none
        | _ => none
    | _ => none

/-- Global replace-by-empty of the `message_id` pattern: scan left to
right, removing each match and resuming after it.  `fuel` bounds the scan
(matches consume at least one character, so the list length suffices). -/
def stripMessageIdAux : Nat → List Char → List Char
  | 0, l => l
  | _ + 1, [] => []
  | fuel + 1, c :: rest =>
      match matchMessageIdAt (c :: rest) with
      | some rem => stripMessageIdAux fuel rem
      | none => c :: stripMessageIdAux fuel rest

/-- Model of `text.replace(/"message_id"\s*:\s*"[^"]*",?\s*/g, "")`. -/
def stripMessageId (s : String) : String :=
  String.mk (stripMessageIdAux s.data.length s.data)

/-- Check, right to left, that the bracket interior ends with
`[A-Z][a-z]{2} \d{4}-\d{2}-\d{2} \d{2}:\d{2} [A-Z]+` (the argument is the
reversed interior). -/
def timestampTailRev (innerRev : List Char) : Bool :=
  let tz := innerRev.takeWhile isAsciiUpper
  if tz.isEmpty then false
  else
    (Option.bind (dropLit [' '] (innerRev.dropWhile isAsciiUpper)) fun r1 =>
     Option.bind (dropClass isAsciiDigit 2 r1) fun r2 =>
     Option.bind (dropLit [':'] r2) fun r3 =>
     Option.bind (dropClass isAsciiDigit 2 r3) fun r4 =>
     Option.bind (dropLit [' '] r4) fun r5 =>
     Option.bind (dropClass isAsciiDigit 2 r5) fun r6 =>
     Option.bind (dropLit ['-'] r6) fun r7 =>
     Option.bind (dropClass isAsciiDigit 2 r7) fun r8 =>
     Option.bind (dropLit ['-'] r8) fun r9 =>
     Option.bind (dropClass isAsciiDigit 4 r9) fun r10 =>
     Option.bind (dropLit [' '] r10) fun r11 =>
     Option.bind (dropClass isAsciiLower 2 r11) fun r12 =>
     dropClass isAsciiUpper 1 r12).isSome

/-- Match the timestamp pattern at the head of `l`: an opening `[`, a
bracket interior whose tail is the timestamp, the first following `]`,
then trailing `\s*`.  Returns the suffix after the whole match. -/
def matchTimestampAt (l : List Char) : Option (List Char) :=
  match l with
  | '[' :: rest =>
      let inner := rest.takeWhile (fun c => !(c == ']'))
      match rest.dropWhile (fun c => !(c == ']')) with
      | ']' :: tail =>
          if timestampTailRev inner.reverse then some (tail.dropWhile isJsWs)
          else none
      | _ => none
  | _ => none

/-- Global replace-by-empty of the timestamp pattern. -/
def stripTimestampsAux : Nat → List Char → List Char
  | 0, l => l
  | _ + 1, [] => []
  | fuel + 1, c :: rest =>
      match matchTimestampAt (c :: rest) with
      | some rem => stripTimestampsAux fuel rem
      | none => c :: stripTimestampsAux fuel rest

/-- Model of `text.replace(/\[[^\]]*[A-Z][a-z]{2} \d{4}-\d{2}-\d{2} \d{2}:\d{2} [A-Z]+\]\s*/g, "")`. -/
def stripTimestamps (s : String) : String :=
  String.mk (stripTimestampsAux s.data.length s.data)

/-! ### SHA-256

`resolveSessionKey` hashes the anchor with Node's
`createHash("sha256").update(anchor).digest("hex").slice(0, 32)`.  The
hash itself is FIPS 180-4 SHA-256 over the UTF-8 bytes of the anchor
string; it is implemented here on `Nat` with explicit reduction modulo
`2 ^ 32`, and validated below against the standard test vectors. -/

namespace Sha256

/-- The word modulus `2 ^ 32`. -/
def M32 : Nat := 4294967296

/-- Right rotation of a 32-bit word. -/
def rotRight (n x : Nat) : Nat := ((x % M32) >>> n) ||| ((x <<< (32 - n)) % M32)

/-- Big sigma 0. -/
def sigmaBig0 (x : Nat) : Nat := rotRight 2 x ^^^ rotRight 13 x ^^^ rotRight 22 x

/-- Big sigma 1. -/
def sigmaBig1 (x : Nat) : Nat := rotRight 6 x ^^^ rotRight 11 x ^^^ rotRight 25 x

/-- Small sigma 0. -/
def sigmaSmall0 (x : Nat) : Nat := rotRight 7 x ^^^ rotRight 18 x ^^^ (x >>> 3)

/-- Small sigma 1. -/
def sigmaSmall1 (x : Nat) : Nat := rotRight 17 x ^^^ rotRight 19 x ^^^ (x >>> 10)

/-- Choice function. -/
def ch (x y z : Nat) : Nat := (x &&& y) ^^^ ((x ^^^ 4294967295) &&& z)

/-- Majority function. -/
def maj (x y z : Nat) : Nat := (x &&& y) ^^^ (x &&& z) ^^^ (y &&& z)

/-- The 64 round constants. -/
def K : List Nat :=
  [1116352408, 1899447441, 3049323471, 3921009573, 961987163,
   1508970993, 2453635748, 2870763221, 3624381080, 310598401,
   607225278, 1426881987, 1925078388, 2162078206, 2614888103,
   3248222580, 3835390401, 4022224774, 264347078, 604807628,
   770255983, 1249150122, 1555081692, 1996064986, 2554220882,
   2821834349, 2952996808, 3210313671, 3336571891, 3584528711,
   113926993, 338241895, 666307205, 773529912, 1294757372,
   1396182291, 1695183700, 1986661051, 2177026350, 2456956037,
   2730485921, 2820302411, 3259730800, 3345764771, 3516065817,
   3600352804, 4094571909, 275423344, 430227734, 506948616,
   659060556, 883997877, 958139571, 1322822218, 1537002063,
   1747873779, 1955562222, 2024104815, 2227730452, 2361852424,
   2428436474, 2756734187, 3204031479, 3329325298]

/-- The eight working-state words. -/
structure Digest where
  w0 : Nat
  w1 : Nat
  w2 : Nat
  w3 : Nat
  w4 : Nat
  w5 : Nat
  w6 : Nat
  w7 : Nat
deriving DecidableEq

/-- The initial hash value. -/
def initH : Digest :=
  ⟨1779033703, 3144134277, 1013904242, 2773480762, 1359893119, 2600822924, 528734635, 1541459225⟩

/-- FIPS 180-4 padding: append `0x80`, zeros to 56 mod 64, then the bit
length as 8 big-endian bytes. -/
def padBytes (msg : List Nat) : List Nat :=
  let L := msg.length
  let zeros := (119 - L % 64) % 64
  let bitLen := 8 * L
  msg ++ 0x80 :: List.replicate zeros 0 ++
    [(bitLen >>> 56) % 256, (bitLen >>> 48) % 256, (bitLen >>> 40) % 256,
     (bitLen >>> 32) % 256, (bitLen >>> 24) % 256, (bitLen >>> 16) % 256,
     (bitLen >>> 8) % 256, bitLen % 256]

/-- Group bytes into big-endian 32-bit words, four bytes at a time. -/
def bytesToWords : List Nat → List Nat
  | b0 :: b1 :: b2 :: b3 :: rest =>
      ((b0 <<< 24) + (b1 <<< 16) + (b2 <<< 8) + b3) :: bytesToWords rest
  | _ => []

/-- Extend a 16-word block to the 64-word message schedule (`fuel` is the
number of words still to append, 48). -/
def extendSchedule : List Nat → Nat → List Nat
  | w, 0 => w
  | w, fuel + 1 =>
      let i := w.length
      let nw := (sigmaSmall1 (w.getD (i - 2) 0) + w.getD (i - 7) 0 +
                 sigmaSmall0 (w.getD (i - 15) 0) + w.getD (i - 16) 0) % M32
      extendSchedule (w ++ [nw]) fuel

/-- One compression round, consuming a `(k, w)` pair. -/
def roundStep (st : Digest) (kw : Nat × Nat) : Digest :=
  let t1 := (st.w7 + sigmaBig1 st.w4 + ch st.w4 st.w5 st.w6 + kw.1 + kw.2) % M32
  let t2 := (sigmaBig0 st.w0 + maj st.w0 st.w1 st.w2) % M32
  ⟨(t1 + t2) % M32, st.w0, st.w1, st.w2, (st.w3 + t1) % M32, st.w4, st.w5, st.w6⟩

/-- Compress one 16-word block into the running digest. -/
def processBlock (d : Digest) (ws : List Nat) : Digest :=
  let w := extendSchedule ws 48
  let r := (K.zip w).foldl roundStep d
  ⟨(d.w0 + r.w0) % M32, (d.w1 + r.w1) % M32, (d.w2 + r.w2) % M32,
   (d.w3 + r.w3) % M32, (d.w4 + r.w4) % M32, (d.w5 + r.w5) % M32,
   (d.w6 + r.w6) % M32, (d.w7 + r.w7) % M32⟩

/-- Fold the padded word stream through the compression function, 16
words per block (`fuel` bounds the number of blocks). -/
def processWordsFuel : Nat → Digest → List Nat → Digest
  | 0, d, _ => d
  | _ + 1, d, [] => d
  | fuel + 1, d, w :: rest =>
      processWordsFuel fuel (processBlock d (w :: rest.take 15)) (rest.drop 15)

/-- Fold the padded word stream through the compression function. -/
def processWords (d : Digest) (l : List Nat) : Digest :=
  processWordsFuel l.length d l

/-- SHA-256 of a byte list, as the eight digest words. -/
def sha256Digest (msg : List Nat) : Digest :=
  processWords initH (bytesToWords (padBytes msg))

/-- The sixteen lowercase hexadecimal digits. -/
def hexChars : List Char := "0123456789abcdef".data

/-- The hex digit of the low nibble of `n`. -/
def hexDigit (n : Nat) : Char := hexChars.getD (n % 16) '0'

/-- A 32-bit word as eight lowercase hex characters, most significant
nibble first. -/
def wordHex (w : Nat) : List Char :=
  [hexDigit (w >>> 28), hexDigit (w >>> 24), hexDigit (w >>> 20),
   hexDigit (w >>> 16), hexDigit (w >>> 12), hexDigit (w >>> 8),
   hexDigit (w >>> 4), hexDigit w]

/-- The 64 hex characters of a digest. -/
def digestHex (d : Digest) : List Char :=
  wordHex d.w0 ++ wordHex d.w1 ++ wordHex d.w2 ++ wordHex d.w3 ++
  wordHex d.w4 ++ wordHex d.w5 ++ wordHex d.w6 ++ wordHex d.w7

/-- Model of `createHash("sha256").update(msg).digest("hex")`. -/
def sha256Hex (msg : List Nat) : String := String.mk (digestHex (sha256Digest msg))

end Sha256

/-- UTF-8 encoding of one Unicode code point. -/
def utf8EncodeCodePoint (c : Nat) : List Nat :=
  if c < 0x80 then [c]
  else if c < 0x800 then [0xC0 + c / 64, 0x80 + c % 64]
  else if c < 0x10000 then [0xE0 + c / 4096, 0x80 + c / 64 % 64, 0x80 + c % 64]
  else [0xF0 + c / 262144, 0x80 + c / 4096 % 64, 0x80 + c / 64 % 64, 0x80 + c % 64]

/-- The UTF-8 bytes of a string (what `hash.update` receives). -/
def utf8Bytes (s : String) : List Nat :=
  s.data.foldr (fun c acc => utf8EncodeCodePoint c.toNat ++ acc) []

/-- The messages whose role puts them in the fingerprint window. -/
def isAnchorRole (m : OpenAIMessage) : Bool :=
  m.role == "system" || m.role == "user"

/-- The noise-stripped, capped content a message contributes to the
fingerprint, before the final trim: extracted content capped at 512
characters, both noise strips applied. -/
def strippedContent (m : OpenAIMessage) : String :=
  stripTimestamps (stripMessageId (String.mk ((extractText m.content).data.take 512)))

/-- The per-message fingerprint text of `resolveSessionKey`: the stripped
content, trimmed. -/
def anchorText (m : OpenAIMessage) : String :=
  jsTrim (strippedContent m)

/-- The anchor window: the first two messages whose role is `system` or
`user`. -/
def anchorMessages (messages : List OpenAIMessage) : List OpenAIMessage :=
  (messages.filter isAnchorRole).take 2

/-- The anchor string that gets hashed: `role:text` for each anchor
message, joined by `|`. -/
def anchorString (messages : List OpenAIMessage) : String :=
  joinSep "|"
    ((anchorMessages messages).map (fun m => String.mk (m.role.data ++ ':' :: (anchorText m).data)))

/-- The anchor fingerprint: the first 32 hex characters of the SHA-256 of
the anchor string. -/
def fingerprint (messages : List OpenAIMessage) : String :=
  String.mk ((Sha256.digestHex (Sha256.sha256Digest (utf8Bytes (anchorString messages)))).take 32)

/-- Model of `SessionManager.resolveSessionKey`: a non-blank explicit key is
returned trimmed; otherwise the anchor fingerprint. -/
def resolveSessionKey (messages : List OpenAIMessage) (explicitKey : Option String) : String :=
  match explicitKey with
  | some k => if jsTrim k == "" then fingerprint messages else jsTrim k
  | none => fingerprint messages

/-- JavaScript nullish coalescing `a ?? b`: `b` only when `a` is
null/undefined (an empty or blank string is kept). -/
def jsNullish (a b : Option String) : Option String :=
  match a with
  | some s => some s
  | none => b

/-- The session-key resolution in `handleCompletions`:
`(headers["x-kiro-session-id"] ?? openclawSessionKey ?? body.user)` fed to
`resolveSessionKey`. -/
def serverSessionKey (kiroHeader openclawHeader bodyUser : Option String)
    (messages : List OpenAIMessage) : String :=
  resolveSessionKey messages (jsNullish kiroHeader (jsNullish openclawHeader bodyUser))

/-! ### The session pool

`SessionManager` state, modelled as explicit state passing.  The
subprocess identity `sessionId` plays the role of the pid (a fresh value
per spawn); `isPrompting` is true exactly while a `prompt()` call has
started and not yet settled (`KiroSession.prompt` installs the chunk
callback on entry and clears it in its `finally` block, and the
`isPrompting` accessor the GC consults reflects that callback).  Kills
are recorded in a log of `(subprocess identity, kill reason)` pairs. -/

/-- The pool's bookkeeping handle per managed session
(`KiroSessionHandle`). -/
structure Handle where
  sentMessageCount : Nat
  lastTouchedAt : Nat
deriving DecidableEq

/-- The observable state of one `KiroSession`. -/
structure SessionState where
  sessionId : Nat
  alive : Bool
  isPrompting : Bool
  lastTouchedAt : Nat
  lastContextPct : ℚ
  consecutiveErrors : Nat
deriving DecidableEq

/-- A pool entry: the session plus its handle (`ManagedSession`; the
prompt lock resolves exactly when the in-flight prompt settles, so its
unresolved state is `session.isPrompting`). -/
structure Managed where
  session : SessionState
  handle : Handle
deriving DecidableEq

/-- The pool state: the session map (an association list with at most one
entry per key), the next fresh subprocess identity, the kill log, the
current time in ms, and the configured idle limit `idleMs`. -/
structure PoolState where
  sessions : List (String × Managed)
  nextId : Nat
  killed : List (Nat × String)
  now : Nat
  idleMs : Nat
deriving DecidableEq

/-- Record a `session.kill(reason)` call in the kill log. -/
def killSession (st : PoolState) (m : Managed) (reason : String) : PoolState :=
  { st with killed := st.killed ++ [(m.session.sessionId, reason)] }

/-- Model of `this.sessions.delete(key)`. -/
def deleteKey (st : PoolState) (key : String) : PoolState :=
  { st with sessions := st.sessions.filter (fun p => !(p.1 == key)) }

/-- Model of `this.sessions.get(key)`. -/
def findKey (st : PoolState) (key : String) : Option Managed :=
  (st.sessions.find? (fun p => p.1 == key)).map Prod.snd

/-- Replace the entry for a present key in place (mutation of the managed
record the map already holds). -/
def updateKey (st : PoolState) (key : String) (m : Managed) : PoolState :=
  { st with sessions := st.sessions.map (fun p => if p.1 == key then (key, m) else p) }

/-- Model of `this.sessions.set(key, managed)` on an absent key. -/
def appendKey (st : PoolState) (key : String) (m : Managed) : PoolState :=
  { st with sessions := st.sessions ++ [(key, m)] }

/-- The result triple of `SessionManager.getOrCreate`. -/
structure GetOrCreate where
  st : PoolState
  managed : Managed
  promptText : String
deriving DecidableEq

/-- The create branch of `getOrCreate` (success path of
`KiroSession.create`): spawn fresh, seed `sentMessageCount` with the full
caller message count, render the full prompt, install the entry with a
pre-resolved prompt lock. -/
def createBranch (st : PoolState) (key : String) (messages : List OpenAIMessage) : GetOrCreate :=
  let s : SessionState :=
    { sessionId := st.nextId, alive := true, isPrompting := false,
      lastTouchedAt := st.now, lastContextPct := 0, consecutiveErrors := 0 }
  let m : Managed :=
    { session := s, handle := { sentMessageCount := messages.length, lastTouchedAt := st.now } }
  { st := appendKey { st with nextId := st.nextId + 1 } key m,
    managed := m,
    promptText := buildPromptFromMessages messages }

/-- Model of `SessionManager.getOrCreate`.  A live entry is reused with the delta
computation unless the caller's message count dropped below
`sentMessageCount` (upstream reset: kill with reason `session-reset`,
evict, fall through to the create code — whose `if (existing)` guard then
kills the same retired session once more with `replaced-dead-session`); a
dead entry is killed and replaced. -/
def getOrCreate (st : PoolState) (key : String) (messages : List OpenAIMessage) : GetOrCreate :=
  match findKey st key with
  | some m =>
      if m.session.alive then
        if messages.length < m.handle.sentMessageCount then
          let st1 := deleteKey (killSession st m "session-reset") key
          let st2 := deleteKey (killSession st1 m "replaced-dead-session") key
          createBranch st2 key messages
        else
          let m' : Managed :=
            { session := { m.session with lastTouchedAt := st.now },
              handle := { sentMessageCount := messages.length, lastTouchedAt := st.now } }
          { st := updateKey st key m',
            managed := m',
            promptText := buildPromptFromMessages (messages.drop m.handle.sentMessageCount) }
      else
        createBranch (deleteKey (killSession st m "replaced-dead-session") key) key messages
  | none => createBranch st key messages

/-- Model of `SessionManager.resetSession`: kill with reason `auto-reset: <reason>`
and evict, when the key is present. -/
def resetSession (st : PoolState) (key : String) (reason : String) : PoolState :=
  match findKey st key with
  | some m => deleteKey (killSession st m (String.append "auto-reset: " reason)) key
  | none => st

/-- The GC sweep's keep condition: the subprocess is alive, and either a
prompt is in flight (`continue`) or the idle time is within the limit. -/
def gcKeeps (st : PoolState) (m : Managed) : Bool :=
  m.session.alive &&
    (m.session.isPrompting || decide (st.now - m.handle.lastTouchedAt ≤ st.idleMs))

/-- The entries one GC sweep kills and evicts. -/
def gcEvicted (st : PoolState) : List (String × Managed) :=
  st.sessions.filter (fun p => !(gcKeeps st p.2))

/-- One `SessionManager.gc` sweep: kill and evict every dead entry and
every idle entry with no prompt in flight; surviving entries are
untouched.  (The code's kill reasons carry diagnostics after the tag;
only the tag is modelled.) -/
def gc (st : PoolState) : PoolState :=
  { st with
    sessions := st.sessions.filter (fun p => gcKeeps st p.2),
    killed := st.killed ++
      (gcEvicted st).map
        (fun p => (p.2.session.sessionId,
          if p.2.session.alive then "gc-idle-timeout" else "gc-already-dead")) }

/-! ### The streaming completions handler -/

/-- Decimal digits of a natural number (`fuel` bounds the recursion). -/
def natDecAux : Nat → Nat → List Char
  | 0, _ => []
  | fuel + 1, n =>
      if n < 10 then [Char.ofNat (48 + n)]
      else natDecAux fuel (n / 10) ++ [Char.ofNat (48 + n % 10)]

/-- Decimal representation of a natural number. -/
def natDec (n : Nat) : String := String.mk (natDecAux (n + 1) n)

/-- Decimal representation of an integer (JavaScript number-to-string on
an integral value). -/
def intDec (i : ℤ) : String :=
  if i < 0 then String.mk ('-' :: (natDec i.natAbs).data) else natDec i.natAbs

/-- Model of `Math.round`: round half toward positive infinity, i.e.
`⌊q + 1/2⌋`, computed as the floor division `(2·num + den) ÷ (2·den)`
on the reduced fraction. -/
def jsRound (q : ℚ) : ℤ := Int.fdiv (2 * q.num + q.den) (2 * q.den)

/-- The critical context warning the streaming success path emits at
`lastContextPct >= 90`. -/
def criticalWarnText (pct : ℚ) : String :=
  "\n\n🚨 Context window at " ++ intDec (jsRound pct) ++
    "% — approaching auto-reset threshold (95%). Send `/new` now to avoid losing your session mid-task."

/-- The context warning the streaming success path emits at
`lastContextPct >= 80`. -/
def softWarnText (pct : ℚ) : String :=
  "\n\n⚠️ Context window at " ++ intDec (jsRound pct) ++
    "%. Send `/new` soon to reset before it fills up."

/-- The in-band message for a prompt-idle timeout. -/
def timeoutMsgText : String :=
  "⚠️ The session went silent for too long (no tool activity). It has been reset — please resend your message."

/-- The in-band message for the consecutive-error threshold. -/
def multiErrorMsgText : String :=
  "⚠️ Multiple consecutive errors detected. The session has been reset — please resend your message."

/-- The in-band message for failed invalid-history recovery. -/
def corruptionMsgText : String :=
  "⚠️ Session history became corrupted and auto-recovery failed. Please send `/new` to reset this conversation."

/-- The SSE frames the handler writes: the initial role chunk, content
chunks, the `finish_reason: "stop"` chunk, and the `data: [DONE]`
terminal frame. -/
inductive SSEItem where
  | roleChunk
  | contentChunk (text : String)
  | finishChunk
  | doneMarker
deriving DecidableEq

/-- How one `prompt()` call settles, as the handler observes it: success
with the streamed chunk texts and the session's recorded context
percentage as of completion; the activity-idle timeout
(`PromptTimeoutError`); or a JSON-RPC error with its message. -/
inductive PromptOutcome where
  | success (chunks : List String) (ctxPct : ℚ)
  | timeout
  | rpcError (msg : String)
deriving DecidableEq

/-- The zero-or-one warning chunk appended after a successful stream. -/
def contextWarningChunks (pct : ℚ) : List SSEItem :=
  if 90 ≤ pct then [.contentChunk (criticalWarnText pct)]
  else if 80 ≤ pct then [.contentChunk (softWarnText pct)]
  else []

/-- The observable result of one streamed completions turn: the SSE items
written, the final pool state, the `(subprocess identity, prompt text)`
calls issued, and whether the turn short-circuited into the empty
blocking completion (empty delta). -/
structure TurnResult where
  items : List SSEItem
  st : PoolState
  promptCalls : List (Nat × String)
  emptyCompletion : Bool
deriving DecidableEq

/-- The invalid-history recovery block of the streaming error path: reset
already done, retry once with only the latest user message's text against
a fresh session whose `sentMessageCount` is overridden to the full caller
message count; on a missing user message or a failed retry, emit the
corruption message and finalize. -/
def invalidHistoryRecovery (st2 : PoolState) (key : String)
    (messages : List OpenAIMessage) (call1 : Nat × String) (o2 : PromptOutcome) : TurnResult :=
  let recoveryText := getLatestUserMessage messages
  if recoveryText == "" then
    { items := [.roleChunk, .contentChunk corruptionMsgText, .finishChunk, .doneMarker],
      st := st2, promptCalls := [call1], emptyCompletion := false }
  else
    let r2 := getOrCreate st2 key messages
    let m2 : Managed :=
      { r2.managed with handle :=
          { r2.managed.handle with sentMessageCount := messages.length } }
    let st3 := updateKey r2.st key m2
    let call2 : Nat × String := (r2.managed.session.sessionId, recoveryText)
    match o2 with
    | .success chunks2 ctx2 =>
        let m3 : Managed :=
          { m2 with session :=
              { m2.session with consecutiveErrors := 0, lastContextPct := ctx2 } }
        { items := .roleChunk :: (chunks2.map .contentChunk ++
            [.finishChunk, .doneMarker]),
          st := updateKey st3 key m3,
          promptCalls := [call1, call2], emptyCompletion := false }
    | _ =>
        { items := [.roleChunk, .contentChunk corruptionMsgText, .finishChunk,
            .doneMarker],
          st := st3, promptCalls := [call1, call2], emptyCompletion := false }

/-- The streaming error path for a JSON-RPC prompt error: bump the error
counter, then in order check the consecutive-error threshold and the
invalid-history sentinel; any other error just finalizes the stream. -/
def rpcErrorTurn (r : GetOrCreate) (key : String) (messages : List OpenAIMessage)
    (e : String) (o2 : PromptOutcome) : TurnResult :=
  let call1 : Nat × String := (r.managed.session.sessionId, r.promptText)
  let errs := r.managed.session.consecutiveErrors + 1
  let st1 := updateKey r.st key
    { r.managed with session := { r.managed.session with consecutiveErrors := errs } }
  if 3 ≤ errs then
    { items := [.roleChunk, .contentChunk multiErrorMsgText, .finishChunk, .doneMarker],
      st := resetSession st1 key (String.append "consecutive-errors-" (natDec errs)),
      promptCalls := [call1], emptyCompletion := false }
  else if isInvalidHistoryError e then
    invalidHistoryRecovery (resetSession st1 key "invalid-conversation-history")
      key messages call1 o2
  else
    { items := [.roleChunk, .finishChunk, .doneMarker],
      st := st1, promptCalls := [call1], emptyCompletion := false }

/-- The streaming path of `handleCompletions`, from `getOrCreate` to the
final SSE frame, for one turn on an already-resolved session key.  The
agent subprocess is abstracted by the two `PromptOutcome`s: how the first
`prompt()` call settles, and how the one-shot recovery retry settles when
it is issued.  (The context-critical mid-prompt reset at 95% changes only
pool state, not the frames, and is outside this turn model.) -/
def streamTurn (st0 : PoolState) (key : String) (messages : List OpenAIMessage)
    (o1 o2 : PromptOutcome) : TurnResult :=
  let r := getOrCreate st0 key messages
  if jsTrim r.promptText == "" then
    { items := [], st := r.st, promptCalls := [], emptyCompletion := true }
  else
    let call1 : Nat × String := (r.managed.session.sessionId, r.promptText)
    match o1 with
    | .success chunks ctx =>
        let m1 : Managed :=
          { r.managed with session :=
              { r.managed.session with consecutiveErrors := 0, lastContextPct := ctx } }
        { items := .roleChunk :: (chunks.map .contentChunk ++ contextWarningChunks ctx ++
            [.finishChunk, .doneMarker]),
          st := updateKey r.st key m1, promptCalls := [call1], emptyCompletion := false }
    | .timeout =>
        let errs := r.managed.session.consecutiveErrors + 1
        let st1 := updateKey r.st key
          { r.managed with session := { r.managed.session with consecutiveErrors := errs } }
        { items := [.roleChunk, .contentChunk timeoutMsgText, .finishChunk, .doneMarker],
          st := resetSession st1 key "prompt-idle-timeout",
          promptCalls := [call1], emptyCompletion := false }
    | .rpcError e => rpcErrorTurn r key messages e o2

end KiroProxy

/-! ## Validation of the embedding on concrete inputs -/

open KiroProxy

/-- FIPS 180-4 test vector: the empty message. -/
example : Sha256.sha256Hex [] =
    "e3b0c44298fc1c149afbf4c8996fb92427ae41e4649b934ca495991b7852b855" := by decide

/-- FIPS 180-4 test vector: `"abc"`. -/
example : Sha256.sha256Hex (utf8Bytes "abc") =
    "ba7816bf8f01cfea414140de5dae2223b00361a396177a9cb410ff61f20015ad" := by decide

/-- FIPS 180-4 test vector: the 448-bit two-block message. -/
example : Sha256.sha256Hex
    (utf8Bytes "abcdbcdecdefdefgefghfghighijhijkijkljklmklmnlmnomnopnopq") =
    "248d6a61d20638b8e5c026930c3e6039a33ce45964ff2167f6ecedd419db06c1" := by decide

/-- The `message_id` strip removes the embedded JSON field, its value,
the optional comma and trailing whitespace. -/
example : stripMessageId "\x7b\"message_id\":\"abc-123\", \"body\":\"hi\"\x7d" =
    "\x7b\"body\":\"hi\"\x7d" := by decide

/-- The timestamp strip removes a prefixed bracketed stamp and the
whitespace after it. -/
example : stripTimestamps "[Discord 123 Thu 2026-02-20 19:30 CST] hello" =
    "hello" := by decide

/-- The timestamp strip removes a bare bracketed stamp but leaves other
bracketed text alone. -/
example : stripTimestamps "[Thu 2026-02-20 19:30 CST] hello [x]" =
    "hello [x]" := by decide

/-- A bracketed fragment without the timestamp shape is kept. -/
example : stripTimestamps "no stamp [here] at all" = "no stamp [here] at all" := by decide

/-- Rounding check: `Math.round` rounds half toward positive infinity. -/
example : jsRound (Rat.divInt 925 10) = 93 ∧ jsRound (Rat.divInt (-25) 10) = -2 := by decide

/-- Validation: `jsRound` agrees with the mathematical `⌊q + 1/2⌋`. -/
theorem jsRound_eq_floor (q : ℚ) : jsRound q = ⌊q + 1 / 2⌋ := by
  have hq : q + 1 / 2 = ((2 * q.num + q.den : ℤ) : ℚ) / ((2 * q.den : ℕ) : ℚ) := by
    push_cast
    rw [eq_div_iff (by positivity)]
    have hnum : (q.den : ℚ) * q = q.num := by
      rw [mul_comm]
      exact_mod_cast Rat.mul_den_eq_num q
    field_simp
    nlinarith [hnum]
  rw [hq, Rat.floor_intCast_div_natCast, jsRound, Int.fdiv_eq_ediv _ (by positivity)]
  norm_num



/-! ## Shared lemmas -/

namespace KiroProxy

/-- Finding a key over an in-place update. -/
theorem find?_map_update (l : List (String × Managed)) (key : String) (m : Managed) :
    (l.map (fun p => if p.1 == key then (key, m) else p)).find? (fun p => p.1 == key)
      = (l.find? (fun p => p.1 == key)).map (fun _ => (key, m)) := by
  induction l with
  | nil => rfl
  | cons q t ih =>
      by_cases hq : q.1 == key
      · simp [List.find?, hq]
      · simp only [List.map_cons, List.find?]
        rw [if_neg hq]
        simp only [hq]
        exact ih

/-- Finding a key over a list the key was filtered out of. -/
theorem find?_filter_ne (l : List (String × Managed)) (key : String) :
    (l.filter (fun p => !(p.1 == key))).find? (fun p => p.1 == key) = none := by
  rw [List.find?_eq_none]
  intro x hx
  have := (List.mem_filter.mp hx).2
  simpa using this

/-- A deleted key is absent. -/
theorem findKey_deleteKey (st : PoolState) (key : String) :
    findKey (deleteKey st key) key = none := by
  simp [findKey, deleteKey, find?_filter_ne]

/-- After `resetSession`, the key is absent. -/
theorem findKey_resetSession (st : PoolState) (key : String) (r : String) :
    findKey (resetSession st key r) key = none := by
  unfold resetSession
  cases hf : findKey st key with
  | none => exact hf
  | some m => simp [findKey, deleteKey, killSession, find?_filter_ne]

/-- Appending an entry for an absent key makes it the entry found. -/
theorem findKey_appendKey (st : PoolState) (key : String) (m : Managed)
    (h : findKey st key = none) : findKey (appendKey st key m) key = some m := by
  have h0 : st.sessions.find? (fun p => p.1 == key) = none := by
    unfold findKey at h
    exact Option.map_eq_none'.mp h
  simp [findKey, appendKey, List.find?_append, h0, List.find?]

/-- The create branch installs the entry it returns. -/
theorem findKey_createBranch (st : PoolState) (key : String) (messages : List OpenAIMessage)
    (h : findKey st key = none) :
    findKey (createBranch st key messages).st key = some (createBranch st key messages).managed := by
  unfold createBranch
  exact findKey_appendKey _ key _ h

/-- The entry `getOrCreate` returns is the pool's entry for the key. -/
theorem getOrCreate_findKey (st : PoolState) (key : String) (messages : List OpenAIMessage) :
    findKey (getOrCreate st key messages).st key = some (getOrCreate st key messages).managed := by
  unfold getOrCreate
  cases hf : findKey st key with
  | none => exact findKey_createBranch st key messages hf
  | some m =>
      by_cases halive : m.session.alive
      · by_cases hlt : messages.length < m.handle.sentMessageCount
        · simp only [halive, if_true, hlt, if_true]
          exact findKey_createBranch _ key messages (findKey_deleteKey _ key)
        · simp only [halive, if_true, hlt, if_false]
          have h0 : ∃ q, st.sessions.find? (fun p => p.1 == key) = some q := by
            unfold findKey at hf
            cases hq : st.sessions.find? (fun p => p.1 == key) with
            | none => rw [hq] at hf; simp at hf
            | some q => exact ⟨q, rfl⟩
          obtain ⟨q, hq⟩ := h0
          unfold findKey updateKey
          rw [find?_map_update, hq]
          rfl
      · simp only [halive, if_false]
        exact findKey_createBranch _ key messages (findKey_deleteKey _ key)

/-- Any entry an in-place update leaves under the key is the update. -/
theorem mem_updateKey_eq {st : PoolState} {key : String} {m m' : Managed}
    (h : (key, m') ∈ (updateKey st key m).sessions) : m' = m := by
  unfold updateKey at h
  simp only [List.mem_map] at h
  obtain ⟨q, _, hq⟩ := h
  by_cases hk : q.1 == key
  · rw [if_pos hk] at hq
    exact (Prod.mk.injEq _ _ _ _ ▸ hq).2.symm ▸ rfl
  · rw [if_neg hk] at hq
    subst hq
    simp at hk

/-- Any entry under a key in a delete-then-append session list is the
appended one. -/
theorem mem_filter_append_eq {l : List (String × Managed)} {key : String} {m m' : Managed}
    (h : (key, m') ∈ l.filter (fun p => !(p.1 == key)) ++ [(key, m)]) : m' = m := by
  simp only [List.mem_append, List.mem_filter, List.mem_singleton] at h
  rcases h with ⟨_, hne⟩ | heq
  · simp at hne
  · exact (Prod.mk.injEq _ _ _ _ ▸ heq).2

/-- Updating a present key makes the update the entry found. -/
theorem findKey_updateKey {st : PoolState} {key : String} {q : Managed} (m : Managed)
    (h : findKey st key = some q) :
    findKey (updateKey st key m) key = some m := by
  have h0 : ∃ p, st.sessions.find? (fun p => p.1 == key) = some p := by
    unfold findKey at h
    cases hq : st.sessions.find? (fun p => p.1 == key) with
    | none => rw [hq] at h; simp at h
    | some p => exact ⟨p, rfl⟩
  obtain ⟨p, hp⟩ := h0
  unfold findKey updateKey
  rw [find?_map_update, hp]
  rfl

/-- The subprocess identity of a found entry is bounded by the spawn
counter when every pool entry's is. -/
theorem findKey_sessionId_lt {st : PoolState} {key : String} {m : Managed}
    (hfresh : ∀ p ∈ st.sessions, p.2.session.sessionId < st.nextId)
    (h : findKey st key = some m) : m.session.sessionId < st.nextId := by
  unfold findKey at h
  cases hq : st.sessions.find? (fun p => p.1 == key) with
  | none => rw [hq] at h; simp at h
  | some q =>
      rw [hq] at h
      have hmem := List.mem_of_find?_eq_some hq
      have hlt := hfresh q hmem
      simp only [Option.map] at h
      rw [Option.some.injEq] at h
      rw [← h]
      exact hlt

/-- A prefix of the filtered list: filtering a prefix. -/
theorem filter_take_isPrefix (p : OpenAIMessage → Bool) (l : List OpenAIMessage) (n : Nat) :
    (l.take n).filter p <+: l.filter p :=
  ⟨(l.drop n).filter p, by rw [← List.filter_append, List.take_append_drop]⟩

/-- Two lists sharing a prefix of length at least two agree on `take 2`. -/
theorem take_two_eq_of_prefix {l₁ l₂ : List OpenAIMessage} (h : l₁ <+: l₂)
    (hlen : 2 ≤ l₁.length) : l₁.take 2 = l₂.take 2 := by
  obtain ⟨t, rfl⟩ := h
  rw [List.take_append_eq_append_take]
  have h0 : 2 - l₁.length = 0 := by omega
  simp [h0]

/-- Every hex digit produced is one of the sixteen lowercase hex
characters. -/
theorem hexDigit_mem (n : Nat) : Sha256.hexDigit n ∈ Sha256.hexChars := by
  have h : n % 16 < 16 := Nat.mod_lt _ (by norm_num)
  unfold Sha256.hexDigit
  set k := n % 16 with hk
  interval_cases k <;> decide

/-- Every character of a word's hex rendering is a lowercase hex digit. -/
theorem wordHex_mem {c : Char} {w : Nat} (h : c ∈ Sha256.wordHex w) : c ∈ Sha256.hexChars := by
  unfold Sha256.wordHex at h
  simp only [List.mem_cons, List.not_mem_nil, or_false] at h
  rcases h with rfl | rfl | rfl | rfl | rfl | rfl | rfl | rfl <;> exact hexDigit_mem _

/-- Every character of a digest's hex rendering is a lowercase hex
digit. -/
theorem digestHex_mem {c : Char} {d : Sha256.Digest} (h : c ∈ Sha256.digestHex d) :
    c ∈ Sha256.hexChars := by
  unfold Sha256.digestHex at h
  simp only [List.mem_append] at h
  rcases h with ((((((h | h) | h) | h) | h) | h) | h) | h <;> exact wordHex_mem h

/-- A digest renders to exactly 64 hex characters. -/
theorem digestHex_length (d : Sha256.Digest) : (Sha256.digestHex d).length = 64 := by
  simp [Sha256.digestHex, Sha256.wordHex]

/-- The fingerprint is exactly 32 characters. -/
theorem fingerprint_length (M : List OpenAIMessage) : (fingerprint M).length = 32 := by
  unfold fingerprint
  show (List.take 32 (Sha256.digestHex _)).length = 32
  rw [List.length_take, digestHex_length]
  omega

/-- Every character of the fingerprint is a lowercase hex digit. -/
theorem fingerprint_hex (M : List OpenAIMessage) :
    ∀ c ∈ (fingerprint M).data, c ∈ Sha256.hexChars := by
  intro c hc
  unfold fingerprint at hc
  have := List.take_subset 32 _ hc
  exact digestHex_mem this

/-- The fingerprint depends only on the anchor window. -/
theorem fingerprint_congr {M1 M2 : List OpenAIMessage}
    (h : anchorMessages M1 = anchorMessages M2) :
    resolveSessionKey M1 none = resolveSessionKey M2 none := by
  unfold resolveSessionKey fingerprint anchorString
  rw [h]

end KiroProxy

/-! ## Claim theorems -/

namespace KiroProxy

/-- C1 (counterexample).  The claim quantifies over every `n` at or
beyond the position of the first user message.  In the two-user-message
conversation below the first user message sits at index 0, so `n = 1` is
at or beyond it, yet the prefix key differs from the full key: with no
system message the anchor window is the first *two* user messages, and
the second one only enters at `n = 2`. -/
theorem c1_prefix_stability_counterexample :
    List.findIdx (fun m => m.role == "user")
        [OpenAIMessage.mk "user" (.str "a"), OpenAIMessage.mk "user" (.str "b")] = 0 ∧
    resolveSessionKey
        ([OpenAIMessage.mk "user" (.str "a"), OpenAIMessage.mk "user" (.str "b")].take 1) none ≠
      resolveSessionKey
        [OpenAIMessage.mk "user" (.str "a"), OpenAIMessage.mk "user" (.str "b")] none := by
  constructor
  · decide
  · decide

/-- C1 (amended).  For every message list `M` with no explicit key,
`resolveSessionKey (M.take n)` equals `resolveSessionKey M` for every `n`
at or beyond the position of the *second* fingerprint-eligible
(system-or-user) message — equivalently, once the prefix holds at least
two eligible messages — or once the prefix holds all of them when `M` has
fewer than two; in particular appending further conversation turns after
the anchor window is complete never changes the session key. -/
theorem c1_prefix_stability (M : List OpenAIMessage) (n : Nat)
    (h : 2 ≤ ((M.take n).filter isAnchorRole).length ∨
         ((M.take n).filter isAnchorRole).length = (M.filter isAnchorRole).length) :
    resolveSessionKey (M.take n) none = resolveSessionKey M none := by
  apply fingerprint_congr
  unfold anchorMessages
  have hpre := filter_take_isPrefix isAnchorRole M n
  rcases h with h2 | hlen
  · exact take_two_eq_of_prefix hpre h2
  · rw [hpre.eq_of_length hlen]

/-- C1 (witness): the four-message conversation from the repository's
session-stability test, truncated after the system+user anchor. -/
theorem c1_prefix_stability_witness :
    (2 ≤ (([OpenAIMessage.mk "system" (.str "You are a helpful assistant."),
            OpenAIMessage.mk "user" (.str "Hello world"),
            OpenAIMessage.mk "assistant" (.str "Hi there!"),
            OpenAIMessage.mk "user" (.str "Second turn")].take 2).filter isAnchorRole).length ∨
      (([OpenAIMessage.mk "system" (.str "You are a helpful assistant."),
         OpenAIMessage.mk "user" (.str "Hello world"),
         OpenAIMessage.mk "assistant" (.str "Hi there!"),
         OpenAIMessage.mk "user" (.str "Second turn")].take 2).filter isAnchorRole).length =
        ([OpenAIMessage.mk "system" (.str "You are a helpful assistant."),
          OpenAIMessage.mk "user" (.str "Hello world"),
          OpenAIMessage.mk "assistant" (.str "Hi there!"),
          OpenAIMessage.mk "user" (.str "Second turn")].filter isAnchorRole).length) ∧
    resolveSessionKey
        ([OpenAIMessage.mk "system" (.str "You are a helpful assistant."),
          OpenAIMessage.mk "user" (.str "Hello world"),
          OpenAIMessage.mk "assistant" (.str "Hi there!"),
          OpenAIMessage.mk "user" (.str "Second turn")].take 2) none =
      resolveSessionKey
        [OpenAIMessage.mk "system" (.str "You are a helpful assistant."),
         OpenAIMessage.mk "user" (.str "Hello world"),
         OpenAIMessage.mk "assistant" (.str "Hi there!"),
         OpenAIMessage.mk "user" (.str "Second turn")] none :=
  ⟨Or.inl (by decide), c1_prefix_stability _ 2 (Or.inl (by decide))⟩

end KiroProxy

namespace KiroProxy

/-- C4 (counterexample).  The claim says a non-blank explicit key comes
back character for character, including surrounding whitespace; the code
trims it first: `" abc "` comes back as `"abc"`. -/
theorem c4_explicit_key_counterexample :
    resolveSessionKey [] (some " abc ") = "abc" ∧ ("abc" : String) ≠ " abc " := by
  constructor
  · decide
  · decide

/-- C4 (amended).  A non-blank explicit key is returned verbatim *after
the whitespace trim*; a blank or absent key yields the fingerprint, a
32-character string of lowercase hexadecimal digits. -/
theorem c4_explicit_key_and_format (M : List OpenAIMessage) (k : String) :
    (jsTrim k ≠ "" → resolveSessionKey M (some k) = jsTrim k) ∧
    (jsTrim k = "" → resolveSessionKey M (some k) = resolveSessionKey M none) ∧
    (resolveSessionKey M none).length = 32 ∧
    (∀ c ∈ (resolveSessionKey M none).data, c ∈ Sha256.hexChars) := by
  refine ⟨fun h => ?_, fun h => ?_, ?_, ?_⟩
  · simp only [resolveSessionKey]
    rw [if_neg (by simpa using h)]
  · simp only [resolveSessionKey]
    rw [if_pos (by simpa using h)]
  · exact fingerprint_length M
  · exact fingerprint_hex M

/-- C4 (witness): the trimmed passthrough and the blank fallback at
concrete inputs. -/
theorem c4_explicit_key_and_format_witness :
    (jsTrim "  my-session  " ≠ "" ∧
      resolveSessionKey [OpenAIMessage.mk "user" (.str "Hi")] (some "  my-session  ") =
        jsTrim "  my-session  ") ∧
    (jsTrim "   " = "" ∧
      resolveSessionKey [OpenAIMessage.mk "user" (.str "Hi")] (some "   ") =
        resolveSessionKey [OpenAIMessage.mk "user" (.str "Hi")] none) ∧
    (resolveSessionKey [OpenAIMessage.mk "user" (.str "Hi")] none).length = 32 :=
  ⟨⟨by decide, (c4_explicit_key_and_format [OpenAIMessage.mk "user" (.str "Hi")]
      "  my-session  ").1 (by decide)⟩,
   ⟨by decide, (c4_explicit_key_and_format [OpenAIMessage.mk "user" (.str "Hi")]
      "   ").2.1 (by decide)⟩,
   (c4_explicit_key_and_format [OpenAIMessage.mk "user" (.str "Hi")] "").2.2.1⟩

/-- C3 (confirmed).  The key used for the pool lookup prefers the
`X-Kiro-Session-Id` header, then the `X-Openclaw-Session-Key` header,
then the body's `user` field (each used when present and non-blank), and
equals the anchor fingerprint whenever all three are absent. -/
theorem c3_session_key_precedence (h1 h2 u : Option String) (M : List OpenAIMessage) :
    (∀ k, h1 = some k → jsTrim k ≠ "" → serverSessionKey h1 h2 u M = jsTrim k) ∧
    (∀ k, h1 = none → h2 = some k → jsTrim k ≠ "" → serverSessionKey h1 h2 u M = jsTrim k) ∧
    (∀ k, h1 = none → h2 = none → u = some k → jsTrim k ≠ "" →
      serverSessionKey h1 h2 u M = jsTrim k) ∧
    (h1 = none → h2 = none → u = none → serverSessionKey h1 h2 u M = fingerprint M) := by
  refine ⟨fun k e hk => ?_, fun k e1 e hk => ?_, fun k e1 e2 e hk => ?_, fun e1 e2 e3 => ?_⟩
  · subst e
    simp only [serverSessionKey, jsNullish, resolveSessionKey]
    rw [if_neg (by simpa using hk)]
  · subst e1; subst e
    simp only [serverSessionKey, jsNullish, resolveSessionKey]
    rw [if_neg (by simpa using hk)]
  · subst e1; subst e2; subst e
    simp only [serverSessionKey, jsNullish, resolveSessionKey]
    rw [if_neg (by simpa using hk)]
  · subst e1; subst e2; subst e3
    rfl

/-- C3 (witness): the four precedence cases at concrete inputs. -/
theorem c3_session_key_precedence_witness :
    serverSessionKey (some "kiro-id") (some "openclaw-key") (some "body-user")
        [OpenAIMessage.mk "user" (.str "Hi")] = "kiro-id" ∧
    serverSessionKey none (some "openclaw-key") (some "body-user")
        [OpenAIMessage.mk "user" (.str "Hi")] = "openclaw-key" ∧
    serverSessionKey none none (some "body-user")
        [OpenAIMessage.mk "user" (.str "Hi")] = "body-user" ∧
    serverSessionKey none none none [OpenAIMessage.mk "user" (.str "Hi")] =
      fingerprint [OpenAIMessage.mk "user" (.str "Hi")] :=
  ⟨(c3_session_key_precedence _ _ _ _).1 "kiro-id" rfl (by decide),
   (c3_session_key_precedence _ _ _ _).2.1 "openclaw-key" rfl rfl (by decide),
   (c3_session_key_precedence _ _ _ _).2.2.1 "body-user" rfl rfl rfl (by decide),
   (c3_session_key_precedence _ _ _ _).2.2.2 rfl rfl rfl⟩

/-- C10 (confirmed).  A whitespace-only `X-Kiro-Session-Id` header is
still non-nullish, so the nullish coalescing chain selects it as the
explicit key and never consults the lower-precedence header or the body
`user` field; `resolveSessionKey` then falls through to the anchor
fingerprint, whatever non-blank keys the lower-precedence signals
carried. -/
theorem c10_blank_header_shadowing (w : String) (h2 u : Option String)
    (M : List OpenAIMessage) (hw : jsTrim w = "") :
    serverSessionKey (some w) h2 u M = fingerprint M ∧
    serverSessionKey (some w) h2 u M = serverSessionKey (some w) none none M := by
  constructor
  · simp only [serverSessionKey, jsNullish, resolveSessionKey]
    rw [if_pos (by simpa using hw)]
  · rfl

/-- C10 (witness): a whitespace header shadowing a non-blank
`X-Openclaw-Session-Key` and body `user`. -/
theorem c10_blank_header_shadowing_witness :
    jsTrim "   " = "" ∧
    serverSessionKey (some "   ") (some "agent:main:discord:channel:1") (some "body-user")
        [OpenAIMessage.mk "user" (.str "Hi")] =
      fingerprint [OpenAIMessage.mk "user" (.str "Hi")] :=
  ⟨by decide,
   (c10_blank_header_shadowing "   " (some "agent:main:discord:channel:1")
      (some "body-user") [OpenAIMessage.mk "user" (.str "Hi")] (by decide)).1⟩

end KiroProxy

namespace KiroProxy

/-- C5 (confirmed).  When the anchor windows of two conversations agree
role-for-role and their contents' first 512 characters agree after the
two noise strips, the fingerprints — and hence the keys with no explicit
key — agree. -/
theorem c5_truncation_noise_stripping (M1 M2 : List OpenAIMessage)
    (h : (anchorMessages M1).map (fun m => (m.role, strippedContent m))
       = (anchorMessages M2).map (fun m => (m.role, strippedContent m))) :
    resolveSessionKey M1 none = resolveSessionKey M2 none := by
  unfold resolveSessionKey fingerprint anchorString
  have h2 := congrArg
    (List.map (fun rp : String × String => String.mk (rp.1.data ++ ':' :: (jsTrim rp.2).data))) h
  simp only [List.map_map, Function.comp] at h2
  have h3 : (anchorMessages M1).map (fun m => String.mk (m.role.data ++ ':' :: (anchorText m).data))
      = (anchorMessages M2).map (fun m => String.mk (m.role.data ++ ':' :: (anchorText m).data)) := h2
  rw [h3]

/-- C5 (witness): a re-stamped, re-IDed anchor hashes to the same key as
the clean one. -/
theorem c5_truncation_noise_stripping_witness :
    (anchorMessages [OpenAIMessage.mk "user"
          (.str "[Discord 999 Thu 2026-02-20 19:30 CST] \x7b\"message_id\":\"m-1\", \"text\":1\x7d deploy")]).map
        (fun m => (m.role, strippedContent m))
      = (anchorMessages [OpenAIMessage.mk "user" (.str "\x7b\"text\":1\x7d deploy")]).map
          (fun m => (m.role, strippedContent m)) ∧
    resolveSessionKey [OpenAIMessage.mk "user"
        (.str "[Discord 999 Thu 2026-02-20 19:30 CST] \x7b\"message_id\":\"m-1\", \"text\":1\x7d deploy")] none
      = resolveSessionKey [OpenAIMessage.mk "user" (.str "\x7b\"text\":1\x7d deploy")] none :=
  ⟨by decide, c5_truncation_noise_stripping _ _ (by decide)⟩

/-- The loop of `buildPromptFromMessages` is filter-then-map. -/
theorem filterMap_user_eq_filter_map (messages : List OpenAIMessage) :
    messages.filterMap (fun m => if m.role == "user" then some (extractText m.content) else none)
      = (messages.filter (fun m => m.role == "user")).map (fun m => extractText m.content) := by
  induction messages with
  | nil => rfl
  | cons m t ih =>
      rw [List.filterMap_cons, List.filter_cons]
      cases hb : m.role == "user" with
      | true =>
          simp [hb]
          simpa using ih
      | false =>
          simp [hb]
          simpa using ih

/-- C6 (confirmed).  The prompt text the pool forwards — for the full
first-turn render and for every delta — is the concatenation of the
textual content of only the `user` messages, joined by a blank line and
trimmed; system and assistant messages contribute nothing. -/
theorem c6_prompt_drops_system (messages : List OpenAIMessage) :
    buildPromptFromMessages messages = promptTextSpec messages ∧
    buildPromptFromMessages messages
      = buildPromptFromMessages (messages.filter (fun m => m.role == "user")) ∧
    (∀ st key, findKey st key = none →
      (getOrCreate st key messages).promptText = buildPromptFromMessages messages) ∧
    (∀ st key m, findKey st key = some m → m.session.alive = true →
      ¬(messages.length < m.handle.sentMessageCount) →
      (getOrCreate st key messages).promptText
        = buildPromptFromMessages (messages.drop m.handle.sentMessageCount)) := by
  refine ⟨?_, ?_, ?_, ?_⟩
  · unfold buildPromptFromMessages promptTextSpec
    rw [filterMap_user_eq_filter_map]
  · unfold buildPromptFromMessages
    rw [filterMap_user_eq_filter_map, filterMap_user_eq_filter_map, List.filter_filter]
    simp only [Bool.and_self]
  · intro st key h
    unfold getOrCreate
    rw [h]
    rfl
  · intro st key m h halive hlt
    unfold getOrCreate
    rw [h]
    simp only [halive, if_true, hlt, if_false]

end KiroProxy

namespace KiroProxy

/-- C2 (confirmed).  Every accepted `getOrCreate` leaves the returned
entry's `sentMessageCount` equal to the caller's `messages.length` (and
installed under the key); a reuse of a live session keeps the same
subprocess and never decreases `sentMessageCount`; and a request whose
message count dropped below the stored `sentMessageCount` kills the
subprocess with reason `session-reset`, removes the entry, and installs a
fresh session — a different subprocess — seeded with `messages.length`. -/
theorem c2_send_count_and_reset (st : PoolState) (key : String)
    (messages : List OpenAIMessage)
    (hfresh : ∀ p ∈ st.sessions, p.2.session.sessionId < st.nextId)
    (_hne : messages ≠ []) :
    ((getOrCreate st key messages).managed.handle.sentMessageCount = messages.length) ∧
    (findKey (getOrCreate st key messages).st key = some (getOrCreate st key messages).managed) ∧
    (∀ m, findKey st key = some m → m.session.alive = true →
      m.handle.sentMessageCount ≤ messages.length →
        (getOrCreate st key messages).managed.session.sessionId = m.session.sessionId ∧
        m.handle.sentMessageCount ≤ (getOrCreate st key messages).managed.handle.sentMessageCount) ∧
    (∀ m, findKey st key = some m → m.session.alive = true →
      messages.length < m.handle.sentMessageCount →
        (m.session.sessionId, "session-reset") ∈ (getOrCreate st key messages).st.killed ∧
        (getOrCreate st key messages).managed.session.sessionId ≠ m.session.sessionId ∧
        (∀ m', (key, m') ∈ (getOrCreate st key messages).st.sessions →
          m' = (getOrCreate st key messages).managed)) := by
  refine ⟨?_, getOrCreate_findKey st key messages, ?_, ?_⟩
  · unfold getOrCreate
    cases hf : findKey st key with
    | none => rfl
    | some m =>
        by_cases halive : m.session.alive
        · by_cases hlt : messages.length < m.handle.sentMessageCount
          · simp only [halive, if_true, hlt, if_true]
            rfl
          · simp only [halive, if_true, hlt, if_false]
        · simp only [halive, if_false]
          rfl
  · intro m hm halive hle
    unfold getOrCreate
    rw [hm]
    simp only [halive, if_true]
    rw [if_neg (by omega)]
    exact ⟨rfl, by simpa using hle⟩
  · intro m hm halive hlt
    have hsid := findKey_sessionId_lt hfresh hm
    unfold getOrCreate
    rw [hm]
    simp only [halive, if_true, hlt, if_true]
    refine ⟨?_, ?_, ?_⟩
    · simp [createBranch, appendKey, deleteKey, killSession, List.mem_append]
    · show st.nextId ≠ m.session.sessionId
      omega
    · intro m' hm'
      simp only [createBranch, appendKey, deleteKey, killSession] at hm' ⊢
      exact mem_filter_append_eq hm'

/-- C2 (witness): a stored count of 4 against a one-message request
forces the upstream reset, and the fresh entry is seeded with 1. -/
theorem c2_send_count_and_reset_witness :
    (3, "session-reset") ∈
      (getOrCreate (PoolState.mk [("k", Managed.mk ⟨3, true, false, 0, 0, 0⟩ ⟨4, 0⟩)] 5 [] 100 1000)
        "k" [OpenAIMessage.mk "user" (.str "Hi")]).st.killed ∧
    (getOrCreate (PoolState.mk [("k", Managed.mk ⟨3, true, false, 0, 0, 0⟩ ⟨4, 0⟩)] 5 [] 100 1000)
        "k" [OpenAIMessage.mk "user" (.str "Hi")]).managed.handle.sentMessageCount = 1 :=
  ⟨((c2_send_count_and_reset _ "k" _ (by decide) (by decide)).2.2.2
      (Managed.mk ⟨3, true, false, 0, 0, 0⟩ ⟨4, 0⟩) (by decide) (by decide) (by decide)).1,
   ((c2_send_count_and_reset _ "k" _ (by decide) (by decide)).1).trans (by decide)⟩

/-- C8 (confirmed).  A GC sweep keeps an entry exactly when its
subprocess is alive and either a prompt is in flight or the idle time is
within `idleMs`; it evicts exactly the dead entries and the prompt-free
idle entries; and an alive entry with a prompt in flight survives every
sweep and is never among the sweep's kills, for every configured idle
limit and clock value. -/
theorem c8_gc_keep_alive (st : PoolState) (key : String) (m : Managed)
    (hp : (key, m) ∈ st.sessions) :
    ((key, m) ∈ (gc st).sessions ↔
      (m.session.alive = true ∧
        (m.session.isPrompting = true ∨ st.now - m.handle.lastTouchedAt ≤ st.idleMs))) ∧
    ((key, m) ∈ gcEvicted st ↔
      (m.session.alive = false ∨
        (m.session.isPrompting = false ∧ st.idleMs < st.now - m.handle.lastTouchedAt))) ∧
    (m.session.alive = true → m.session.isPrompting = true →
      ((key, m) ∈ (gc st).sessions ∧ (key, m) ∉ gcEvicted st)) := by
  have h1 : (key, m) ∈ (gc st).sessions ↔
      (m.session.alive = true ∧
        (m.session.isPrompting = true ∨ st.now - m.handle.lastTouchedAt ≤ st.idleMs)) := by
    show (key, m) ∈ st.sessions.filter (fun p => gcKeeps st p.2) ↔ _
    rw [List.mem_filter]
    simp only [hp, true_and, gcKeeps]
    cases ha : m.session.alive <;> cases hpr : m.session.isPrompting <;> simp
  have h2 : (key, m) ∈ gcEvicted st ↔
      (m.session.alive = false ∨
        (m.session.isPrompting = false ∧ st.idleMs < st.now - m.handle.lastTouchedAt)) := by
    unfold gcEvicted
    rw [List.mem_filter]
    simp only [hp, true_and, gcKeeps]
    cases ha : m.session.alive <;> cases hpr : m.session.isPrompting <;> simp
    all_goals omega
  refine ⟨h1, h2, fun ha hpr => ⟨h1.mpr ⟨ha, Or.inl hpr⟩, fun hc => ?_⟩⟩
  rcases h2.mp hc with hdead | ⟨hnp, _⟩
  · rw [ha] at hdead
    simp at hdead
  · rw [hpr] at hnp
    simp at hnp

/-- C8 (witness): an alive prompting entry idle far beyond the limit is
kept and not killed by the sweep. -/
theorem c8_gc_keep_alive_witness :
    ("k", Managed.mk ⟨7, true, true, 0, 0, 0⟩ ⟨2, 0⟩) ∈
      (gc (PoolState.mk [("k", Managed.mk ⟨7, true, true, 0, 0, 0⟩ ⟨2, 0⟩)]
        8 [] 10000000 1000)).sessions ∧
    ("k", Managed.mk ⟨7, true, true, 0, 0, 0⟩ ⟨2, 0⟩) ∉
      gcEvicted (PoolState.mk [("k", Managed.mk ⟨7, true, true, 0, 0, 0⟩ ⟨2, 0⟩)]
        8 [] 10000000 1000) :=
  (c8_gc_keep_alive _ "k" _ (by decide)).2.2 (by decide) (by decide)

/-- C9 (counterexample).  At a recorded context percentage of 92 the
appended warning chunk wraps `/new` in backticks, so it is not the §6
string the claim requires character for character. -/
theorem c9_context_warning_counterexample :
    (streamTurn { sessions := [], nextId := 0, killed := [], now := 0, idleMs := 0 } "k"
        [OpenAIMessage.mk "user" (.str "Hi")]
        (.success [] 92) .timeout).items.getD 1 .doneMarker
      = .contentChunk "\n\n🚨 Context window at 92% — approaching auto-reset threshold (95%). Send `/new` now to avoid losing your session mid-task." ∧
    ("\n\n🚨 Context window at 92% — approaching auto-reset threshold (95%). Send `/new` now to avoid losing your session mid-task." : String)
      ≠ "\n\n🚨 Context window at 92% — approaching auto-reset threshold (95%). Send /new now to avoid losing your session mid-task." := by
  constructor
  · decide
  · decide

/-- C9 (amended).  On every successful streamed completion, exactly one
warning chunk is appended between the content chunks and the
`finish_reason` chunk if and only if the recorded context percentage is
at least 80; its content is the critical string when the percentage is at
least 90 and the warn string otherwise, with the rounded percentage
interpolated — both strings wrapping `/new` in backticks (the code's
variant of the §6 strings). -/
theorem c9_context_warning (st : PoolState) (key : String) (messages : List OpenAIMessage)
    (chunks : List String) (ctx : ℚ) (o2 : PromptOutcome)
    (h : jsTrim (getOrCreate st key messages).promptText ≠ "") :
    (streamTurn st key messages (.success chunks ctx) o2).items
      = .roleChunk :: (chunks.map .contentChunk ++
          (if 90 ≤ ctx then
            [.contentChunk ("\n\n🚨 Context window at " ++ intDec (jsRound ctx) ++
              "% — approaching auto-reset threshold (95%). Send `/new` now to avoid losing your session mid-task.")]
           else if 80 ≤ ctx then
            [.contentChunk ("\n\n⚠️ Context window at " ++ intDec (jsRound ctx) ++
              "%. Send `/new` soon to reset before it fills up.")]
           else []) ++ [.finishChunk, .doneMarker]) := by
  unfold streamTurn
  rw [if_neg (by simpa using h)]
  rfl

/-- C9 (witness): a fractional percentage of 92.5 rounds to 93 and
produces the critical chunk right before the finish chunk. -/
theorem c9_context_warning_witness :
    jsTrim (getOrCreate { sessions := [], nextId := 0, killed := [], now := 0, idleMs := 0 } "k"
        [OpenAIMessage.mk "user" (.str "Hi")]).promptText ≠ "" ∧
    (streamTurn { sessions := [], nextId := 0, killed := [], now := 0, idleMs := 0 } "k"
        [OpenAIMessage.mk "user" (.str "Hi")] (.success ["ok"] (Rat.divInt 925 10)) .timeout).items
      = [.roleChunk, .contentChunk "ok",
         .contentChunk "\n\n🚨 Context window at 93% — approaching auto-reset threshold (95%). Send `/new` now to avoid losing your session mid-task.",
         .finishChunk, .doneMarker] :=
  ⟨by decide,
   (c9_context_warning _ "k" _ ["ok"] (Rat.divInt 925 10) .timeout (by decide)).trans (by decide)⟩

end KiroProxy

namespace KiroProxy

/-- With no entry under the key, `getOrCreate` is its create branch. -/
theorem getOrCreate_of_findKey_none {st : PoolState} {key : String}
    (messages : List OpenAIMessage) (h : findKey st key = none) :
    getOrCreate st key messages = createBranch st key messages := by
  unfold getOrCreate
  rw [h]

/-- A reset does not touch the spawn counter. -/
theorem resetSession_nextId (st : PoolState) (key r : String) :
    (resetSession st key r).nextId = st.nextId := by
  unfold resetSession
  cases findKey st key <;> rfl

/-- A reset on a present key appends exactly one kill record. -/
theorem resetSession_killed {st : PoolState} {key : String} {m : Managed} (r : String)
    (h : findKey st key = some m) :
    (resetSession st key r).killed
      = st.killed ++ [(m.session.sessionId, String.append "auto-reset: " r)] := by
  unfold resetSession
  rw [h]
  rfl

/-- The subprocess `getOrCreate` returns sits below the resulting spawn
counter whenever every pool entry's does. -/
theorem getOrCreate_sessionId_lt {st : PoolState} {key : String}
    (messages : List OpenAIMessage)
    (hfresh : ∀ p ∈ st.sessions, p.2.session.sessionId < st.nextId) :
    (getOrCreate st key messages).managed.session.sessionId
      < (getOrCreate st key messages).st.nextId := by
  unfold getOrCreate
  cases hf : findKey st key with
  | none => exact Nat.lt_succ_self _
  | some m =>
      by_cases halive : m.session.alive
      · by_cases hlt : messages.length < m.handle.sentMessageCount
        · simp only [halive, if_true, hlt, if_true]
          exact Nat.lt_succ_self _
        · simp only [halive, if_true, hlt, if_false]
          show m.session.sessionId < st.nextId
          exact findKey_sessionId_lt hfresh hf
      · simp only [halive, if_false]
        exact Nat.lt_succ_self _

/-- With a non-empty prompt text, a failing turn runs the RPC error
path. -/
theorem streamTurn_rpcError (st : PoolState) (key : String)
    (messages : List OpenAIMessage) (e : String) (o2 : PromptOutcome)
    (hprompt : jsTrim (getOrCreate st key messages).promptText ≠ "") :
    streamTurn st key messages (.rpcError e) o2
      = rpcErrorTurn (getOrCreate st key messages) key messages e o2 := by
  unfold streamTurn
  rw [if_neg (by simpa using hprompt)]

/-- Under the consecutive-error threshold, an invalid-history error runs
the recovery block on the reset pool. -/
theorem rpcErrorTurn_invalid (r : GetOrCreate) (key : String)
    (messages : List OpenAIMessage) (e : String) (o2 : PromptOutcome)
    (hinv : isInvalidHistoryError e = true)
    (herr : r.managed.session.consecutiveErrors + 1 < 3) :
    rpcErrorTurn r key messages e o2
      = invalidHistoryRecovery
          (resetSession
            (updateKey r.st key
              { r.managed with session :=
                  { r.managed.session with
                    consecutiveErrors := r.managed.session.consecutiveErrors + 1 } })
            key "invalid-conversation-history")
          key messages (r.managed.session.sessionId, r.promptText) o2 := by
  unfold rpcErrorTurn
  rw [if_neg (by omega), if_pos hinv]

/-- What the recovery block does on a pool whose key was just reset: no
further kills; with no user message, the corruption chunk and no retry;
otherwise exactly one retry against the freshly spawned session, whose
`sentMessageCount` ends at the full message count, streaming the retry's
chunks on success and the corruption chunk on failure. -/
theorem invalidHistoryRecovery_spec (st2 : PoolState) (key : String)
    (messages : List OpenAIMessage) (call1 : Nat × String) (o2 : PromptOutcome)
    (hnone : findKey st2 key = none) :
    ((invalidHistoryRecovery st2 key messages call1 o2).st.killed = st2.killed) ∧
    (getLatestUserMessage messages = "" →
      invalidHistoryRecovery st2 key messages call1 o2
        = { items := [.roleChunk, .contentChunk corruptionMsgText, .finishChunk, .doneMarker],
            st := st2, promptCalls := [call1], emptyCompletion := false }) ∧
    (getLatestUserMessage messages ≠ "" →
      ((invalidHistoryRecovery st2 key messages call1 o2).promptCalls
          = [call1, (st2.nextId, getLatestUserMessage messages)] ∧
       (∃ mf, findKey (invalidHistoryRecovery st2 key messages call1 o2).st key = some mf ∧
          mf.handle.sentMessageCount = messages.length ∧
          mf.session.sessionId = st2.nextId) ∧
       (∀ chunks2 ctx2, o2 = .success chunks2 ctx2 →
          (invalidHistoryRecovery st2 key messages call1 o2).items
            = .roleChunk :: (chunks2.map .contentChunk ++ [.finishChunk, .doneMarker])) ∧
       ((∀ chunks2 ctx2, o2 ≠ .success chunks2 ctx2) →
          (invalidHistoryRecovery st2 key messages call1 o2).items
            = [.roleChunk, .contentChunk corruptionMsgText, .finishChunk, .doneMarker]))) := by
  by_cases hrec : getLatestUserMessage messages = ""
  · have hred : invalidHistoryRecovery st2 key messages call1 o2
        = { items := [.roleChunk, .contentChunk corruptionMsgText, .finishChunk, .doneMarker],
            st := st2, promptCalls := [call1], emptyCompletion := false } := by
      unfold invalidHistoryRecovery
      rw [if_pos (by simpa using hrec)]
    refine ⟨by rw [hred], fun _ => hred, fun hne => absurd hrec hne⟩
  · have hred : invalidHistoryRecovery st2 key messages call1 o2
        = (let r2 := createBranch st2 key messages
           let m2 : Managed :=
             { r2.managed with handle :=
                 { r2.managed.handle with sentMessageCount := messages.length } }
           let st3 := updateKey r2.st key m2
           let call2 : Nat × String := (r2.managed.session.sessionId, getLatestUserMessage messages)
           match o2 with
           | .success chunks2 ctx2 =>
               let m3 : Managed :=
                 { m2 with session :=
                     { m2.session with consecutiveErrors := 0, lastContextPct := ctx2 } }
               { items := .roleChunk :: (chunks2.map .contentChunk ++
                   [.finishChunk, .doneMarker]),
                 st := updateKey st3 key m3,
                 promptCalls := [call1, call2], emptyCompletion := false }
           | _ =>
               { items := [.roleChunk, .contentChunk corruptionMsgText, .finishChunk,
                   .doneMarker],
                 st := st3, promptCalls := [call1, call2], emptyCompletion := false }) := by
      unfold invalidHistoryRecovery
      rw [if_neg (by simpa using hrec), getOrCreate_of_findKey_none messages hnone]
    have hfindApp : findKey (createBranch st2 key messages).st key
        = some (createBranch st2 key messages).managed := findKey_createBranch st2 key messages hnone
    refine ⟨?_, fun he => absurd he hrec, fun _ => ⟨?_, ?_, ?_, ?_⟩⟩
    · rw [hred]
      cases o2 <;> rfl
    · rw [hred]
      cases o2 <;> rfl
    · rw [hred]
      cases o2 with
      | success chunks2 ctx2 =>
          refine ⟨_, findKey_updateKey _ (findKey_updateKey _ hfindApp), rfl, rfl⟩
      | timeout =>
          refine ⟨_, findKey_updateKey _ hfindApp, rfl, rfl⟩
      | rpcError e2 =>
          refine ⟨_, findKey_updateKey _ hfindApp, rfl, rfl⟩
    · intro chunks2 ctx2 ho2
      subst ho2
      rw [hred]
    · intro hns
      rw [hred]
      cases o2 with
      | success chunks2 ctx2 => exact absurd rfl (hns chunks2 ctx2)
      | timeout => rfl
      | rpcError e2 => rfl

/-- C7 (confirmed).  When a streamed prompt fails with an error carrying
the `invalid conversation history` sentinel — and neither the timeout
branch (a distinct outcome) nor the consecutive-error threshold applies —
the handler kills the session with reason
`auto-reset: invalid-conversation-history`, creates a fresh session (a
new subprocess identity) under the same key with `sentMessageCount`
seeded to the full `messages.length`, and retries exactly once with only
the latest user message's text; if no user message exists, or if the
retry also fails, the corruption chunk is emitted and the stream
finalizes with the stop chunk and `[DONE]`; a successful retry streams
the retry's chunks and finalizes normally. -/
theorem c7_invalid_history_one_shot (st : PoolState) (key : String)
    (messages : List OpenAIMessage) (e : String) (o2 : PromptOutcome)
    (hfresh : ∀ p ∈ st.sessions, p.2.session.sessionId < st.nextId)
    (hprompt : jsTrim (getOrCreate st key messages).promptText ≠ "")
    (hinv : isInvalidHistoryError e = true)
    (herr : (getOrCreate st key messages).managed.session.consecutiveErrors + 1 < 3) :
    (((getOrCreate st key messages).managed.session.sessionId,
        "auto-reset: invalid-conversation-history")
      ∈ (streamTurn st key messages (.rpcError e) o2).st.killed) ∧
    (getLatestUserMessage messages ≠ "" →
      ((streamTurn st key messages (.rpcError e) o2).promptCalls
          = [((getOrCreate st key messages).managed.session.sessionId,
              (getOrCreate st key messages).promptText),
             ((getOrCreate st key messages).st.nextId, getLatestUserMessage messages)] ∧
       (getOrCreate st key messages).st.nextId
          ≠ (getOrCreate st key messages).managed.session.sessionId ∧
       (∃ mf, findKey (streamTurn st key messages (.rpcError e) o2).st key = some mf ∧
          mf.handle.sentMessageCount = messages.length ∧
          mf.session.sessionId = (getOrCreate st key messages).st.nextId))) ∧
    (getLatestUserMessage messages = "" →
      ((streamTurn st key messages (.rpcError e) o2).items
          = [.roleChunk, .contentChunk corruptionMsgText, .finishChunk, .doneMarker] ∧
       (streamTurn st key messages (.rpcError e) o2).promptCalls
          = [((getOrCreate st key messages).managed.session.sessionId,
              (getOrCreate st key messages).promptText)])) ∧
    (∀ chunks2 ctx2, o2 = .success chunks2 ctx2 → getLatestUserMessage messages ≠ "" →
      (streamTurn st key messages (.rpcError e) o2).items
        = .roleChunk :: (chunks2.map .contentChunk ++ [.finishChunk, .doneMarker])) ∧
    ((∀ chunks2 ctx2, o2 ≠ .success chunks2 ctx2) → getLatestUserMessage messages ≠ "" →
      (streamTurn st key messages (.rpcError e) o2).items
        = [.roleChunk, .contentChunk corruptionMsgText, .finishChunk, .doneMarker]) := by
  have hT : streamTurn st key messages (.rpcError e) o2
      = invalidHistoryRecovery
          (resetSession
            (updateKey (getOrCreate st key messages).st key
              { (getOrCreate st key messages).managed with session :=
                  { (getOrCreate st key messages).managed.session with
                    consecutiveErrors :=
                      (getOrCreate st key messages).managed.session.consecutiveErrors + 1 } })
            key "invalid-conversation-history")
          key messages
          ((getOrCreate st key messages).managed.session.sessionId,
            (getOrCreate st key messages).promptText) o2 :=
    (streamTurn_rpcError st key messages e o2 hprompt).trans
      (rpcErrorTurn_invalid (getOrCreate st key messages) key messages e o2 hinv herr)
  have hupd : findKey
      (updateKey (getOrCreate st key messages).st key
        { (getOrCreate st key messages).managed with session :=
            { (getOrCreate st key messages).managed.session with
              consecutiveErrors :=
                (getOrCreate st key messages).managed.session.consecutiveErrors + 1 } }) key
      = some { (getOrCreate st key messages).managed with session :=
          { (getOrCreate st key messages).managed.session with
            consecutiveErrors :=
              (getOrCreate st key messages).managed.session.consecutiveErrors + 1 } } :=
    findKey_updateKey _ (getOrCreate_findKey st key messages)
  have hnone : findKey
      (resetSession
        (updateKey (getOrCreate st key messages).st key
          { (getOrCreate st key messages).managed with session :=
              { (getOrCreate st key messages).managed.session with
                consecutiveErrors :=
                  (getOrCreate st key messages).managed.session.consecutiveErrors + 1 } })
        key "invalid-conversation-history") key = none :=
    findKey_resetSession _ _ _
  have hspec := invalidHistoryRecovery_spec _ key messages
    ((getOrCreate st key messages).managed.session.sessionId,
      (getOrCreate st key messages).promptText) o2 hnone
  have hnext : (resetSession
      (updateKey (getOrCreate st key messages).st key
        { (getOrCreate st key messages).managed with session :=
            { (getOrCreate st key messages).managed.session with
              consecutiveErrors :=
                (getOrCreate st key messages).managed.session.consecutiveErrors + 1 } })
      key "invalid-conversation-history").nextId = (getOrCreate st key messages).st.nextId := by
    rw [resetSession_nextId]
    rfl
  refine ⟨?_, fun hne => ⟨?_, ?_, ?_⟩, fun hrec => ⟨?_, ?_⟩, ?_, ?_⟩
  · rw [hT, hspec.1, resetSession_killed "invalid-conversation-history" hupd]
    refine List.mem_append.mpr (Or.inr ?_)
    simp only [List.mem_singleton]
    rfl
  · rw [hT, (hspec.2.2 hne).1, hnext]
  · have hlt := @getOrCreate_sessionId_lt st key messages hfresh
    omega
  · obtain ⟨mf, hmf, h1, h2⟩ := (hspec.2.2 hne).2.1
    rw [hT]
    exact ⟨mf, hmf, h1, by rw [h2, hnext]⟩
  · rw [hT, hspec.2.1 hrec]
  · rw [hT, hspec.2.1 hrec]
  · intro chunks2 ctx2 ho2 hne
    rw [hT]
    exact (hspec.2.2 hne).2.2.1 chunks2 ctx2 ho2
  · intro hns hne
    rw [hT]
    exact (hspec.2.2 hne).2.2.2 hns

/-- C7 (witness): an invalid-history failure on a first turn retries once
on a fresh subprocess with the latest user text, streams the retry, and
logs the auto-reset kill. -/
theorem c7_invalid_history_one_shot_witness :
    (streamTurn (PoolState.mk [] 10 [] 0 0) "k" [OpenAIMessage.mk "user" (.str "Hi")]
        (.rpcError "boom invalid conversation history x") (.success ["rec"] 0)).promptCalls
      = [(10, "Hi"), (11, "Hi")] ∧
    (streamTurn (PoolState.mk [] 10 [] 0 0) "k" [OpenAIMessage.mk "user" (.str "Hi")]
        (.rpcError "boom invalid conversation history x") (.success ["rec"] 0)).items
      = [.roleChunk, .contentChunk "rec", .finishChunk, .doneMarker] ∧
    (10, "auto-reset: invalid-conversation-history") ∈
      (streamTurn (PoolState.mk [] 10 [] 0 0) "k" [OpenAIMessage.mk "user" (.str "Hi")]
        (.rpcError "boom invalid conversation history x") (.success ["rec"] 0)).st.killed :=
  ⟨(((c7_invalid_history_one_shot (PoolState.mk [] 10 [] 0 0) "k"
        [OpenAIMessage.mk "user" (.str "Hi")] "boom invalid conversation history x"
        (.success ["rec"] 0) (by decide) (by decide) (by decide) (by decide)).2.1
      (by decide)).1).trans (by decide),
   ((c7_invalid_history_one_shot (PoolState.mk [] 10 [] 0 0) "k"
        [OpenAIMessage.mk "user" (.str "Hi")] "boom invalid conversation history x"
        (.success ["rec"] 0) (by decide) (by decide) (by decide) (by decide)).2.2.2.1
      ["rec"] 0 rfl (by decide)).trans (by decide),
   by
    have h := (c7_invalid_history_one_shot (PoolState.mk [] 10 [] 0 0) "k"
        [OpenAIMessage.mk "user" (.str "Hi")] "boom invalid conversation history x"
        (.success ["rec"] 0) (by decide) (by decide) (by decide) (by decide)).1
    have hsid : (getOrCreate (PoolState.mk [] 10 [] 0 0) "k"
        [OpenAIMessage.mk "user" (.str "Hi")]).managed.session.sessionId = 10 := by decide
    rw [hsid] at h
    exact h⟩

end KiroProxy

namespace KiroProxy

/-- C6 (witness): a first-turn render of a mixed conversation keeps only
the user texts, joined by a blank line. -/
theorem c6_prompt_drops_system_witness :
    findKey (PoolState.mk [] 0 [] 0 0) "k" = none ∧
    (getOrCreate (PoolState.mk [] 0 [] 0 0) "k"
        [OpenAIMessage.mk "system" (.str "persona"),
         OpenAIMessage.mk "user" (.str "first"),
         OpenAIMessage.mk "assistant" (.str "echo"),
         OpenAIMessage.mk "user" (.str "second")]).promptText = "first\n\nsecond" :=
  ⟨by decide,
   ((c6_prompt_drops_system
      [OpenAIMessage.mk "system" (.str "persona"),
       OpenAIMessage.mk "user" (.str "first"),
       OpenAIMessage.mk "assistant" (.str "echo"),
       OpenAIMessage.mk "user" (.str "second")]).2.2.1
      (PoolState.mk [] 0 [] 0 0) "k" (by decide)).trans (by decide)⟩

end KiroProxy
